import Mathlib

/-!
# Verification of the structured-response reward scoring engine

Shallow embedding of the reward-scoring core of the repository:

* verl/utils/reward_score/rule.py    — generic tag/content quality scorer
* verl/utils/reward_score/newkk.py   — logic-puzzle assertion scorer
* verl/utils/reward_score/chem.py    — molecule-generation scorer
* verl/workers/reward_manager/logic_rl_reward.py — LogicRLRewardManager
* verl/workers/reward_manager/chem_reward.py     — ChemRewardManager

Modelling conventions:
* Python floats are modelled as rationals (all reward constants are exact
  small decimals; the claims under scrutiny are stage-level equalities and
  monotonicity, not IEEE rounding behaviour).
* The Python `re` literal patterns used by the scorers (plain tag literals,
  the `A(.*?)B` content captures, and the word-boundary assertions) are
  embedded as explicit character-list scanners. `\w` is modelled as ASCII
  alphanumeric or underscore and `\s` via Char.isWhitespace; the tag
  literals themselves are ASCII so this matches the source on the inputs
  the scorers distinguish.
* External collaborators (the tokenizer, RDKit/the property oracle, and the
  absent kk module, which is repository code not present under src/) enter
  the model as explicit function parameters; exception-throwing oracle
  calls are modelled as Option-valued results.
* Stateful manager code (torch tensor writes, early `raise`) is modelled by
  explicit row construction in the Except monad; torch negative-index
  wraparound is modelled explicitly.
-/

/-! ## String scanning primitives

`countOccur` models `len(list(pattern.finditer(text)))` for a literal
pattern: the number of non-overlapping occurrences found left to right.
The fuel argument (initialised to the haystack length) only makes the
recursion structural; every step consumes at least one character, so the
fuel never runs out on the initial call. -/

def scanCount (needle : List Char) : Nat → List Char → Nat
  | 0, _ => 0
  | _ + 1, [] => 0
  | fuel + 1, c :: rest =>
    if needle.isPrefixOf (c :: rest) then
      1 + scanCount needle fuel (List.drop (needle.length - 1) rest)
    else
      scanCount needle fuel rest

def countOccur (needle hay : String) : Nat :=
  scanCount needle.data hay.data.length hay.data

/-- The helper firstPosAux models `pattern.search(text).start()` for a
literal pattern: the index (in characters, offset by `i`) of the first
occurrence of `needle`, if any. -/
def firstPosAux (needle : List Char) : List Char → Nat → Option Nat
  | [], _ => none
  | c :: rest, i =>
    if needle.isPrefixOf (c :: rest) then some i else firstPosAux needle rest (i + 1)

def firstPos (needle hay : String) : Option Nat :=
  firstPosAux needle.data hay.data 0

def firstPosFrom (needle : List Char) (hay : List Char) (start : Nat) : Option Nat :=
  (firstPosAux needle (hay.drop start) 0).map (· + start)

/-- Python whitespace for `str.strip()` and the regex class `\s`
(ASCII part). -/
def isSpaceChar (c : Char) : Bool :=
  c == ' ' || c == '\t' || c == '\n' || c == '\r' || c == '\x0b' || c == '\x0c'

def trimChars (l : List Char) : List Char :=
  ((l.dropWhile isSpaceChar).reverse.dropWhile isSpaceChar).reverse

/-- Models Python `str.strip()`. -/
def strTrim (s : String) : String := String.mk (trimChars s.data)

/-- ASCII lower-casing of one character (the delimiters and names the
scorers compare are ASCII). -/
def lowerChar (c : Char) : Char :=
  if 65 ≤ c.toNat ∧ c.toNat ≤ 90 then Char.ofNat (c.toNat + 32) else c

def lowerStr (s : String) : String := String.mk (s.data.map lowerChar)

/-- Models `text.split("\n")`: the maximal newline-free segments that
Python regexes without DOTALL treat as the units `.*` can span. -/
def splitLinesAux : List Char → List Char → List (List Char)
  | [], acc => [acc.reverse]
  | c :: rest, acc =>
    if c == '\n' then acc.reverse :: splitLinesAux rest []
    else splitLinesAux rest (c :: acc)

def splitNewlines (s : String) : List (List Char) := splitLinesAux s.data []

/-- Models `re.search(open + r'(.*?)' + close, s, re.DOTALL)` for literal
`open`/`close`: the content of the leftmost match (lazy inner group).
The leftmost match starts at the first occurrence of `open`; if no `close`
occurs after it then no later occurrence of `open` has one either, so the
search fails — hence a single forward scan is faithful. -/
def searchBetween (openTag closeTag : String) (s : String) : Option String :=
  match firstPosAux openTag.data s.data 0 with
  | none => none
  | some i =>
    match firstPosFrom closeTag.data s.data (i + openTag.data.length) with
    | none => none
    | some j =>
      some (String.mk ((s.data.drop (i + openTag.data.length)).take (j - (i + openTag.data.length))))

/-! ## Tag structure checks shared by rule.py and newkk.py

Both files run the same two-stage structural check (per-tag existence and
uniqueness, then ordering of the four first-match offsets) with
file-specific reward constants. -/

/-- The order check `ts_start < te_start < as_start < ae_start` on the
first-match offsets recorded for each tag (each tag occurs exactly once on
every path that evaluates this, so the `getD 0` default is never used
there). -/
def tagOrderOk (s : String) : Bool :=
  let ts := (firstPos "<think>" s).getD 0
  let te := (firstPos "</think>" s).getD 0
  let asp := (firstPos "<answer>" s).getD 0
  let aep := (firstPos "</answer>" s).getD 0
  decide (ts < te) && decide (te < asp) && decide (asp < aep)

/-- The acceptance condition of the extractor: each of the four tag
literals occurs exactly once and in the order
think_start < think_end < answer_start < answer_end. This is the branch of
`compute_score` (both files) on which the content stages run. -/
def structAccepted (s : String) : Bool :=
  (countOccur "<think>" s == 1) && (countOccur "</think>" s == 1) &&
  (countOccur "<answer>" s == 1) && (countOccur "</answer>" s == 1) &&
  tagOrderOk s

/-- Content of the leftmost `<think>(.*?)</think>` match, stripped;
empty string when there is no match (both files collapse the no-match case
and the all-whitespace case to the same behaviour). -/
def thinkContentOf (s : String) : String :=
  strTrim ((searchBetween "<think>" "</think>" s).getD "")

/-- Content of the leftmost `<answer>(.*?)</answer>` match, stripped. -/
def answerContentOf (s : String) : String :=
  strTrim ((searchBetween "<answer>" "</answer>" s).getD "")

/-! ## rule.py: compute_score -/

def RULE_REWARD_TAG_PRESENT : ℚ := 1/2
def RULE_PENALTY_TAG_MISSING_OR_DUPLICATE : ℚ := -2
def RULE_REWARD_ORDER_CORRECT : ℚ := 1
def RULE_PENALTY_ORDER_INCORRECT : ℚ := -3
def RULE_REWARD_CONTENT_NON_EMPTY_THINK : ℚ := 1/5
def RULE_PENALTY_CONTENT_EMPTY_THINK : ℚ := -1/2
def RULE_REWARD_CONTENT_NON_EMPTY_ANSWER : ℚ := 1/2
def RULE_PENALTY_CONTENT_EMPTY_ANSWER : ℚ := -1

/-- Embedding of `rule.compute_score(model_response, ground_truth)`.
The loop over the four tag patterns accumulates +0.5 per tag found exactly
once and returns early with the accumulated score plus the
missing-or-duplicate penalty at the first tag whose count differs from 1;
then the order check, then the two content checks. `ground_truth` is a
parameter of the Python function that its body never reads. -/
def ruleComputeScore (modelResponse : String) (groundTruth : String) : ℚ :=
  if countOccur "<think>" modelResponse ≠ 1 then
    RULE_PENALTY_TAG_MISSING_OR_DUPLICATE
  else if countOccur "</think>" modelResponse ≠ 1 then
    RULE_REWARD_TAG_PRESENT + RULE_PENALTY_TAG_MISSING_OR_DUPLICATE
  else if countOccur "<answer>" modelResponse ≠ 1 then
    2 * RULE_REWARD_TAG_PRESENT + RULE_PENALTY_TAG_MISSING_OR_DUPLICATE
  else if countOccur "</answer>" modelResponse ≠ 1 then
    3 * RULE_REWARD_TAG_PRESENT + RULE_PENALTY_TAG_MISSING_OR_DUPLICATE
  else if tagOrderOk modelResponse then
    4 * RULE_REWARD_TAG_PRESENT + RULE_REWARD_ORDER_CORRECT
      + (if thinkContentOf modelResponse ≠ "" then RULE_REWARD_CONTENT_NON_EMPTY_THINK
         else RULE_PENALTY_CONTENT_EMPTY_THINK)
      + (if answerContentOf modelResponse ≠ "" then RULE_REWARD_CONTENT_NON_EMPTY_ANSWER
         else RULE_PENALTY_CONTENT_EMPTY_ANSWER)
  else
    4 * RULE_REWARD_TAG_PRESENT + RULE_PENALTY_ORDER_INCORRECT

/-! ## newkk.py: logic-puzzle assertion scorer

Word-boundary matching (`\b` in the source patterns) is modelled with the
regex word class `\w` = ASCII alphanumeric or underscore. -/

def isWordChar (c : Char) : Bool :=
  decide ('a' ≤ c ∧ c ≤ 'z') || decide ('A' ≤ c ∧ c ≤ 'Z') ||
  decide ('0' ≤ c ∧ c ≤ '9') || c == '_'

def isAsciiAlpha (c : Char) : Bool :=
  decide ('a' ≤ c ∧ c ≤ 'z') || decide ('A' ≤ c ∧ c ≤ 'Z')

/-- A `\b` boundary holds before a word character when the preceding
character (if any) is not a word character. -/
def boundaryOk (prev : Option Char) : Bool :=
  match prev with
  | none => true
  | some p => !isWordChar p

/-- A `\b` boundary holds after a word character when the following
character (if any) is not a word character. -/
def afterBoundaryOk : List Char → Bool
  | [] => true
  | d :: _ => !isWordChar d

/-- Models `re.search(r'\b' + name + r'\b', hay)` for a `name` made of
word characters: some occurrence of `name` flanked by word boundaries.
`prev` is the character just before the current scan position. -/
def wordOccAux (name : List Char) (prev : Option Char) : List Char → Bool
  | [] => false
  | c :: rest =>
    (boundaryOk prev && name.isPrefixOf (c :: rest)
      && afterBoundaryOk (List.drop name.length (c :: rest)))
    || wordOccAux name (some c) rest

def wordMatch (name hay : String) : Bool := wordOccAux name.data none hay.data

/-- Models one position of `re.search(r'.*\bN\b.*\bR\b.*', line)`:
a word-bounded occurrence of `name` followed (at or after its end) by a
word-bounded occurrence of `role`. Because `.` does not match newlines,
the whole match lives inside one newline-free segment, so this is applied
per line. -/
def assertAux (name role : List Char) (prev : Option Char) : List Char → Bool
  | [] => false
  | c :: rest =>
    (boundaryOk prev && name.isPrefixOf (c :: rest)
      && wordOccAux role name.getLast? (List.drop name.length (c :: rest)))
    || assertAux name role (some c) rest

/-- Models `re.search(rf'.*\b\x7bname\x7d\b.*\b\x7brole\x7d\b.*',
model_answer_text, re.IGNORECASE)`: some newline-free segment contains a
word-bounded `name` and, after it, a word-bounded `role` (matching is
case-insensitive; `name` and `role` are lower-case). -/
def assertionMatch (name role : String) (answerText : String) : Bool :=
  (splitNewlines answerText).any
    (fun line => assertAux name.data role.data none (line.map lowerChar))

/-! ### Ground-truth parsing: `_parse_gt_to_map` -/

/-- Try the pattern `\b([a-zA-Z]+)\b\s+is\s+a\s+\b(knight|knave)\b`
(IGNORECASE) at the current position: a maximal ASCII-letter run with a
word boundary on each side, then whitespace, `is`, whitespace, `a`,
whitespace, then `knight` or `knave` with a trailing word boundary.
Returns the lower-cased (name, role) groups. -/
def tryNameRoleAt (prev : Option Char) (l : List Char) : Option (String × String) :=
  if !boundaryOk prev then none
  else
    let name := l.takeWhile isAsciiAlpha
    if name.isEmpty then none
    else
      let l1 := l.drop name.length
      if !afterBoundaryOk l1 then none
      else
        let ws1 := l1.takeWhile isSpaceChar
        if ws1.isEmpty then none
        else
          match l1.drop ws1.length with
          | i :: s :: l2 =>
            if lowerChar i == 'i' && lowerChar s == 's' then
              let ws2 := l2.takeWhile isSpaceChar
              if ws2.isEmpty then none
              else
                match l2.drop ws2.length with
                | a :: l3 =>
                  if lowerChar a == 'a' then
                    let ws3 := l3.takeWhile isSpaceChar
                    if ws3.isEmpty then none
                    else
                      let l4 := l3.drop ws3.length
                      let l4l := l4.map lowerChar
                      if ("knight".data.isPrefixOf l4l
                          && afterBoundaryOk (l4.drop 6)) then
                        some (String.mk (name.map lowerChar), "knight")
                      else if ("knave".data.isPrefixOf l4l
                          && afterBoundaryOk (l4.drop 5)) then
                        some (String.mk (name.map lowerChar), "knave")
                      else none
                  else none
                | [] => none
            else none
          | _ => none

/-- Models `pattern.search(line)` for the name/role pattern: the leftmost
position at which `tryNameRoleAt` succeeds. -/
def searchNameRole (prev : Option Char) : List Char → Option (String × String)
  | [] => none
  | c :: rest =>
    match tryNameRoleAt prev (c :: rest) with
    | some nr => some nr
    | none => searchNameRole (some c) rest

/-- Python dict insertion: overwrite in place if the key exists, else
append. -/
def gtInsert (m : List (String × String)) (k v : String) : List (String × String) :=
  if m.any (fun p => p.1 == k) then
    m.map (fun p => if p.1 == k then (k, v) else p)
  else m ++ [(k, v)]

/-- Embedding of `_parse_gt_to_map(gt_text)`: for each line, the first
name/role match (if any) is inserted into the map. -/
def parseGtToMap (gtText : String) : List (String × String) :=
  (splitNewlines gtText).foldl
    (fun m line =>
      match searchNameRole none line with
      | some (n, r) => gtInsert m n r
      | none => m) []

/-- The ground-truth payload handed to `newkk.compute_score`: a dict read
only through `ground_truth.get("solution_text_format", "")`. -/
structure NewkkGT where
  solutionTextFormat : Option String

def gtTextOf (gt : NewkkGT) : String := gt.solutionTextFormat.getD ""

/-! ### newkk.compute_score -/

def NK_REWARD_TAG_PRESENT : ℚ := 1/2
def NK_PENALTY_TAG_MISSING_OR_DUPLICATE : ℚ := -4
def NK_REWARD_ORDER_CORRECT : ℚ := 1
def NK_PENALTY_ORDER_INCORRECT : ℚ := -5
def NK_PENALTY_CONTENT_EMPTY_ANSWER : ℚ := -2
def NK_REWARD_FOR_EACH_CORRECT_ASSERTION : ℚ := 4
def NK_MIN_THINK_REWARD : ℚ := -4
def NK_MAX_THINK_REWARD : ℚ := 4
def NK_TARGET_THINK_LENGTH : ℚ := 2000
def NK_REWARD_FOR_KEYWORD_IN_THINK : ℚ := 1

/-- Length-shaping component (stage 3a of `newkk.compute_score`):
`min(slope * think_length + MIN_THINK_REWARD, MAX_THINK_REWARD)` with
`slope = (MAX_THINK_REWARD - MIN_THINK_REWARD) / TARGET_THINK_LENGTH`. -/
def newkkThinkLengthScore (thinkLength : ℕ) : ℚ :=
  min ((NK_MAX_THINK_REWARD - NK_MIN_THINK_REWARD) / NK_TARGET_THINK_LENGTH
        * (thinkLength : ℚ) + NK_MIN_THINK_REWARD)
      NK_MAX_THINK_REWARD

/-- Stage 3b: +1 for every ground-truth key that appears word-bounded in
the lower-cased think content. -/
def newkkQualityScore (gtMap : List (String × String)) (thinkContentLower : String) : ℚ :=
  gtMap.foldl
    (fun acc p =>
      acc + if wordMatch p.1 thinkContentLower then NK_REWARD_FOR_KEYWORD_IN_THINK else 0)
    0

/-- Stage 4 assertion count: the number of (name, role) pairs confirmed in
the answer text. -/
def newkkCorrectAssertions (gtMap : List (String × String)) (answerText : String) : ℕ :=
  gtMap.foldl (fun n p => n + if assertionMatch p.1 p.2 answerText then 1 else 0) 0

/-- Score accumulated by `newkk.compute_score` before the stage-4 answer
evaluation, on the branch where the structural checks passed:
tag rewards + order reward + length shaping + (keyword quality unless the
ground-truth map is empty). -/
def newkkPreAnswerScore (s : String) (gt : NewkkGT) : ℚ :=
  let thinkContent := thinkContentOf s
  let gtMap := parseGtToMap (gtTextOf gt)
  4 * NK_REWARD_TAG_PRESENT + NK_REWARD_ORDER_CORRECT
    + newkkThinkLengthScore thinkContent.data.length
    + (if gtMap.isEmpty then 0 else newkkQualityScore gtMap (lowerStr thinkContent))

/-- Embedding of `newkk.compute_score(model_response, ground_truth)`.
Stages: per-tag existence/uniqueness with early return, order check with
early return, length + keyword-quality shaping, then answer evaluation:
empty answer text adds the empty-answer penalty; with a non-empty answer
but an empty ground-truth map the accumulated score is returned as is;
otherwise each confirmed assertion adds a fixed bonus. -/
def newkkComputeScore (modelResponse : String) (groundTruth : NewkkGT) : ℚ :=
  if countOccur "<think>" modelResponse ≠ 1 then
    NK_PENALTY_TAG_MISSING_OR_DUPLICATE
  else if countOccur "</think>" modelResponse ≠ 1 then
    NK_REWARD_TAG_PRESENT + NK_PENALTY_TAG_MISSING_OR_DUPLICATE
  else if countOccur "<answer>" modelResponse ≠ 1 then
    2 * NK_REWARD_TAG_PRESENT + NK_PENALTY_TAG_MISSING_OR_DUPLICATE
  else if countOccur "</answer>" modelResponse ≠ 1 then
    3 * NK_REWARD_TAG_PRESENT + NK_PENALTY_TAG_MISSING_OR_DUPLICATE
  else if tagOrderOk modelResponse then
    let gtMap := parseGtToMap (gtTextOf groundTruth)
    let answerText := answerContentOf modelResponse
    if answerText = "" then
      newkkPreAnswerScore modelResponse groundTruth + NK_PENALTY_CONTENT_EMPTY_ANSWER
    else if gtMap.isEmpty then
      newkkPreAnswerScore modelResponse groundTruth
    else
      newkkPreAnswerScore modelResponse groundTruth
        + (newkkCorrectAssertions gtMap answerText : ℚ) * NK_REWARD_FOR_EACH_CORRECT_ASSERTION
  else
    4 * NK_REWARD_TAG_PRESENT + NK_PENALTY_ORDER_INCORRECT

/-! ## chem.py: molecule-generation scorer

The property oracle (RDKit) is an external collaborator. A parsed molecule
is represented by the results the oracle would return for it, each as an
Option: `none` models a call that raises (caught by the source's
`try/except` and mapped to the function's fallback value). Module-level
availability flags and `Chem.MolFromSmiles` enter as a configuration
record. In the source, SA_SCORE_AVAILABLE can only be true when
RDKIT_AVAILABLE is. -/

structure Mol where
  qedRes : Option ℚ
  saRes : Option ℚ
  logpRes : Option ℚ
  mwRes : Option ℚ
  tpsaRes : Option ℚ
  hbdRes : Option ℤ
  hbaRes : Option ℤ
  aromaticRingsRes : Option ℤ
  rotatableBondsRes : Option ℤ

structure ChemCfg where
  rdkitAvailable : Bool
  saScoreAvailable : Bool
  molFromSmiles : String → Option Mol

/-- Embedding of `check_format(response_str)`: exactly one `<SMILES>` and
one `</SMILES>` tag (case-insensitive), and the lazily-captured inner text
between them must be non-empty after stripping; then (+1, smiles), else
(-5, none). The inner capture requires at least one character between the
tags. -/
def checkFormat (responseStr : String) : ℚ × Option String :=
  let ls := lowerStr responseStr
  if countOccur "<smiles>" ls = 1 ∧ countOccur "</smiles>" ls = 1 then
    match firstPos "<smiles>" ls, firstPos "</smiles>" ls with
    | some i, some j =>
      if i + 8 < j then
        let smiles := strTrim (String.mk ((responseStr.data.drop (i + 8)).take (j - (i + 8))))
        if smiles ≠ "" then (1, some smiles) else (-5, none)
      else (-5, none)
    | _, _ => (-5, none)
  else (-5, none)

/-- Embedding of `check_validity(smiles)`: without RDKit, or when parsing
fails or raises, (-3, none); on a parsed molecule (+0.5, mol). -/
def checkValidity (cfg : ChemCfg) (smiles : String) : ℚ × Option Mol :=
  if !cfg.rdkitAvailable then (-3, none)
  else
    match cfg.molFromSmiles smiles with
    | none => (-3, none)
    | some mol => (1/2, some mol)

/-- Embedding of `qed_reward`: 0 without RDKit or on an exception; otherwise 0 below
QED 0.5 and `(qed - 0.5) * 4` above. -/
def qedReward (cfg : ChemCfg) (mol : Mol) : ℚ :=
  if !cfg.rdkitAvailable then 0
  else
    match mol.qedRes with
    | none => 0
    | some q => if q < 1/2 then 0 else (q - 1/2) * 4

/-- Embedding of `sa_reward`: the fixed neutral value 1.0 when the SA estimator is
unavailable; 0 on an exception; otherwise a piecewise-linear map of the
SA score (1–4 best, 4–7 decaying, above 7 zero). -/
def saReward (cfg : ChemCfg) (mol : Mol) : ℚ :=
  if !cfg.saScoreAvailable then 1
  else
    match mol.saRes with
    | none => 0
    | some sa =>
      if sa ≤ 4 then 2 - (sa - 1) * (1/2)
      else if sa ≤ 7 then max 0 (1/2 - (sa - 4) * (3/20))
      else 0

/-- Embedding of `logp_reward`: 0 without RDKit or on an exception; peak 1.5 at
logP 2.5 with the source's asymmetric ramps. -/
def logpReward (cfg : ChemCfg) (mol : Mol) : ℚ :=
  if !cfg.rdkitAvailable then 0
  else
    match mol.logpRes with
    | none => 0
    | some lp =>
      if 1 ≤ lp ∧ lp ≤ 4 then 3/2 - |lp - 5/2| * (3/10)
      else if 0 ≤ lp ∧ lp < 1 then lp * (4/5)
      else if 4 < lp ∧ lp ≤ 5 then max 0 (1/2 - (lp - 4) * (3/10))
      else 0

/-- Embedding of `mw_reward`: full reward in 200–500, ramps on 150–200 and 500–600,
zero outside; 0 without RDKit or on an exception. -/
def mwReward (cfg : ChemCfg) (mol : Mol) : ℚ :=
  if !cfg.rdkitAvailable then 0
  else
    match mol.mwRes with
    | none => 0
    | some mw =>
      if 200 ≤ mw ∧ mw ≤ 500 then 1
      else if 150 ≤ mw ∧ mw < 200 then (mw - 150) / 50 * (1/2)
      else if 500 < mw ∧ mw ≤ 600 then max 0 (1 - (mw - 500) / 100)
      else 0

/-- Embedding of `tpsa_reward`: full reward in 40–120, ramps on 20–40 and 120–140,
zero outside; 0 without RDKit or on an exception. -/
def tpsaReward (cfg : ChemCfg) (mol : Mol) : ℚ :=
  if !cfg.rdkitAvailable then 0
  else
    match mol.tpsaRes with
    | none => 0
    | some t =>
      if 40 ≤ t ∧ t ≤ 120 then 1
      else if 20 ≤ t ∧ t < 40 then (t - 20) / 20 * (1/2)
      else if 120 < t ∧ t ≤ 140 then max 0 (1 - (t - 120) / 20)
      else 0

/-- Embedding of `lipinski_reward`: counts rule-of-five violations from four oracle
calls made inside one try block (any raising call yields 0), then the
step function 0→1.5, 1→1.0, 2→0.5, ≥3→0. -/
def lipinskiReward (cfg : ChemCfg) (mol : Mol) : ℚ :=
  if !cfg.rdkitAvailable then 0
  else
    match mol.mwRes, mol.logpRes, mol.hbdRes, mol.hbaRes with
    | some mw, some lp, some hbd, some hba =>
      let violations : ℕ :=
        (if mw > 500 then 1 else 0) + (if lp > 5 then 1 else 0)
          + (if hbd > 5 then 1 else 0) + (if hba > 10 then 1 else 0)
      if violations = 0 then 3/2
      else if violations = 1 then 1
      else if violations = 2 then 1/2
      else 0
    | _, _, _, _ => 0

/-- Embedding of `egfr_specific_reward`: two step contributions (aromatic rings and
rotatable bonds, both calls in one try block) summed; 0 without RDKit or
on an exception. -/
def egfrSpecificReward (cfg : ChemCfg) (mol : Mol) : ℚ :=
  if !cfg.rdkitAvailable then 0
  else
    match mol.aromaticRingsRes, mol.rotatableBondsRes with
    | some ar, some rb =>
      (if 2 ≤ ar ∧ ar ≤ 4 then 3/5 else if ar = 1 ∨ ar = 5 then 3/10 else 0)
        + (if 5 ≤ rb ∧ rb ≤ 10 then 2/5
           else if (3 ≤ rb ∧ rb < 5) ∨ (10 < rb ∧ rb ≤ 12) then 1/5 else 0)
    | _, _ => 0

/-- Embedding of `chem.compute_score(solution_str, ground_truth)`.
(The Python signature carries a `ground_truth` parameter that the body
never reads; it is omitted here.) Without RDKit the function returns -5
immediately; otherwise format stage, then validity stage, then the seven
property rewards summed, each earlier stage's failure returning the
accumulated rewards of the stages run so far. -/
def chemComputeScore (cfg : ChemCfg) (solutionStr : String) : ℚ :=
  if !cfg.rdkitAvailable then -5
  else
    let fmt := checkFormat solutionStr
    match fmt.2 with
    | none => fmt.1
    | some smiles =>
      let val := checkValidity cfg smiles
      match val.2 with
      | none => fmt.1 + val.1
      | some mol =>
        fmt.1 + val.1 + qedReward cfg mol + saReward cfg mol + logpReward cfg mol
          + mwReward cfg mol + tpsaReward cfg mol + lipinskiReward cfg mol
          + egfrSpecificReward cfg mol

/-! ## Reward managers

A batch sample exposes padded prompt/response token-id rows, an attention
mask aligned with their concatenation, a ground-truth payload (type
parameter `γ`) and a data-source tag. The tokenizer collaborator enters as
a `List Nat → String` parameter. The tensor write
`reward_tensor[i, valid_response_length - 1] = score` uses torch indexing,
where a negative index is offset by the row length and an index that is
still out of range raises — modelled in the Except monad. -/

structure LRSample (γ : Type) where
  prompts : List Nat
  responses : List Nat
  attentionMask : List Nat
  groundTruth : γ
  dataSource : String

structure LRBatch (γ : Type) where
  rmScores : Option (List (List ℚ))
  samples : List (LRSample γ)

/-- Embedding of `valid_response_length = data_item.batch["attention_mask"][prompt_length:].sum()`. -/
def validResponseLength {γ : Type} (s : LRSample γ) : ℕ :=
  ((s.attentionMask.drop s.prompts.length).sum)

/-- Torch tensor element assignment at a possibly negative index:
a negative index is offset by the row length; an index out of range after
that raises. -/
def torchSetNeg (row : List ℚ) (idx : ℤ) (v : ℚ) : Except String (List ℚ) :=
  let j : ℤ := if idx < 0 then idx + row.length else idx
  if h : 0 ≤ j ∧ j.toNat < row.length then .ok (row.set j.toNat v)
  else .error "IndexError"

/-- The compute-score functions `_select_rm_score_fn` can return. -/
inductive RmScoreFnTag
  | gsm8k
  | math
  | countdown
  | kk
  | rule
deriving DecidableEq

/-- Models `"needle" in hay` (Python substring containment). -/
def containsSub (needle hay : String) : Bool :=
  (firstPosAux needle.data hay.data 0).isSome

/-- Embedding of `_select_rm_score_fn(data_source)`
(logic_rl_reward.py): dispatch by equality or substring containment on
the data-source identifier; unknown identifiers raise NotImplementedError
(the `newkk` branch is commented out in the source; `"kk"` is checked
before `"rule"`). -/
def selectRmScoreFn (dataSource : String) : Except String RmScoreFnTag :=
  if dataSource = "openai/gsm8k" then .ok .gsm8k
  else if dataSource = "lighteval/MATH" then .ok .math
  else if containsSub "countdown" dataSource then .ok .countdown
  else if containsSub "kk" dataSource then .ok .kk
  else if containsSub "rule" dataSource then .ok .rule
  else .error "NotImplementedError"

/-- The compute-score modules the manager file imports that are not part
of src/ (kk) or are referenced without being imported (gsm8k, math,
countdown): external scoring functions over the payload type `γ`. -/
structure ExtScorers (γ : Type) where
  gsm8k : String → γ → ℚ
  math : String → γ → ℚ
  countdown : String → γ → ℚ
  kk : String → γ → ℚ

/-- Resolve a selected tag to its scoring function. `rule.compute_score`
is in src/ and never reads its ground-truth argument (see
`rule_score_ignores_ground_truth` below), so the payload is passed through
as the empty string. -/
def applyRmScoreFn {γ : Type} (ext : ExtScorers γ) :
    RmScoreFnTag → String → γ → ℚ
  | .gsm8k => ext.gsm8k
  | .math => ext.math
  | .countdown => ext.countdown
  | .kk => ext.kk
  | .rule => fun s _ => ruleComputeScore s ""

/-- One iteration of `LogicRLRewardManager.__call__`'s loop, producing
sample `i`'s row of the reward tensor: decode the mask-selected response
tokens, select the scorer — the source passes the literal `"kk"` to
`_select_rm_score_fn`, not the sample's data source — score, and write
the score at index `valid_response_length - 1` of a zero row. -/
def logicRLSampleRow {γ : Type} (ext : ExtScorers γ) (tokenizerDecode : List Nat → String)
    (s : LRSample γ) : Except String (List ℚ) := do
  let vrl := validResponseLength s
  let responseStr := tokenizerDecode (s.responses.take vrl)
  let fnTag ← selectRmScoreFn "kk"
  let score := applyRmScoreFn ext fnTag responseStr s.groundTruth
  torchSetNeg (List.replicate s.responses.length 0) ((vrl : ℤ) - 1) score

/-- Embedding of `LogicRLRewardManager.__call__`: the precomputed
`rm_scores` fast path, else one reward row per sample. -/
def logicRLCall {γ : Type} (ext : ExtScorers γ) (tokenizerDecode : List Nat → String)
    (batch : LRBatch γ) : Except String (List (List ℚ)) :=
  match batch.rmScores with
  | some t => .ok t
  | none => batch.samples.mapM (logicRLSampleRow ext tokenizerDecode)

/-- One iteration of `ChemRewardManager.__call__`'s loop: same row
construction with `chem.compute_score` as the scorer. -/
def chemSampleRow {γ : Type} (cfg : ChemCfg) (tokenizerDecode : List Nat → String)
    (s : LRSample γ) : Except String (List ℚ) :=
  let vrl := validResponseLength s
  let responseStr := tokenizerDecode (s.responses.take vrl)
  let score := chemComputeScore cfg responseStr
  torchSetNeg (List.replicate s.responses.length 0) ((vrl : ℤ) - 1) score

/-- Embedding of `ChemRewardManager.__call__`. -/
def chemRewardCall {γ : Type} (cfg : ChemCfg) (tokenizerDecode : List Nat → String)
    (batch : LRBatch γ) : Except String (List (List ℚ)) :=
  match batch.rmScores with
  | some t => .ok t
  | none => batch.samples.mapM (chemSampleRow cfg tokenizerDecode)

/-- Well-formedness of a batch sample: the attention mask covers the
prompt row followed by the response row, mask entries are 0/1, and the
response row is non-empty. -/
def LRSample.wf {γ : Type} (s : LRSample γ) : Prop :=
  s.attentionMask.length = s.prompts.length + s.responses.length
    ∧ (∀ b ∈ s.attentionMask, b ≤ 1)
    ∧ s.responses.length ≠ 0

/-! ## Helper lemmas -/

theorem checkFormat_cases (s : String) :
    checkFormat s = (-5, none) ∨ ∃ sm, checkFormat s = (1, some sm) := by
  simp only [checkFormat]
  repeat' split
  all_goals first
    | exact Or.inl rfl
    | exact Or.inr ⟨_, rfl⟩

theorem checkFormat_fst_of_none (s : String) (h : (checkFormat s).2 = none) :
    (checkFormat s).1 = -5 := by
  rcases checkFormat_cases s with hc | ⟨sm, hc⟩
  · rw [hc]
  · rw [hc] at h
    exact absurd h (by simp)

theorem checkFormat_fst_of_some (s : String) (sm : String)
    (h : (checkFormat s).2 = some sm) : (checkFormat s).1 = 1 := by
  rcases checkFormat_cases s with hc | ⟨sm', hc⟩
  · rw [hc] at h
    exact absurd h (by simp)
  · rw [hc]

theorem checkValidity_parse_none (cfg : ChemCfg) (sm : String)
    (hr : cfg.rdkitAvailable = true) (hp : cfg.molFromSmiles sm = none) :
    checkValidity cfg sm = (-3, none) := by
  simp [checkValidity, hr, hp]

theorem sum_le_length_of_le_one :
    ∀ l : List ℕ, (∀ b ∈ l, b ≤ 1) → l.sum ≤ l.length := by
  intro l
  induction l with
  | nil => intro _; simp
  | cons a t ih =>
    intro h
    have ha : a ≤ 1 := h a (by simp)
    have ht := ih (fun b hb => h b (by simp [hb]))
    simp only [List.sum_cons, List.length_cons]
    omega

theorem torchSetNeg_isOk (row : List ℚ) (idx : ℤ) (v : ℚ)
    (h : -(row.length : ℤ) ≤ idx ∧ idx < row.length) :
    (torchSetNeg row idx v).isOk = true := by
  unfold torchSetNeg
  by_cases hneg : idx < 0
  · rw [if_pos hneg, dif_pos ⟨by omega, by omega⟩]
    rfl
  · rw [if_neg hneg, dif_pos ⟨by omega, by omega⟩]
    rfl

theorem mapM_except_isOk {α β : Type} (f : α → Except String β) :
    ∀ l : List α, (∀ a ∈ l, (f a).isOk = true) → (l.mapM f).isOk = true := by
  intro l
  induction l with
  | nil => intro _; rfl
  | cons a t ih =>
    intro h
    rw [List.mapM_cons]
    have ha := h a (by simp)
    cases hfa : f a with
    | error e => rw [hfa] at ha; exact absurd ha (by simp [Except.isOk, Except.toBool])
    | ok b =>
      have ht := ih (fun x hx => h x (by simp [hx]))
      cases hft : t.mapM f with
      | error e => rw [hft] at ht; exact absurd ht (by simp [Except.isOk, Except.toBool])
      | ok bs => rfl

/-! ## Claim theorems -/

/-- Claim C10: the generic rule scorer's result depends only on the response
text — `rule.compute_score` never reads its ground-truth argument, so any
two ground truths give the same score for the same text. -/
theorem rule_score_ignores_ground_truth :
    ∀ (text g1 g2 : String), ruleComputeScore text g1 = ruleComputeScore text g2 :=
  fun _ _ _ => rfl

/-- Claim C8: the length-shaping component of the logic-puzzle scorer is
monotonically non-decreasing in the reasoning-block length up to the
configured target length 2000, and equals the maximum reward for every
length at or beyond the target. -/
theorem think_length_score_monotone_capped :
    (∀ a b : ℕ, a ≤ b → b ≤ 2000 →
      newkkThinkLengthScore a ≤ newkkThinkLengthScore b)
    ∧ (∀ n : ℕ, 2000 ≤ n → newkkThinkLengthScore n = NK_MAX_THINK_REWARD) := by
  constructor
  · intro a b hab _
    unfold newkkThinkLengthScore
    apply min_le_min _ le_rfl
    have hc : (a : ℚ) ≤ (b : ℚ) := by exact_mod_cast hab
    have hs : (0 : ℚ) ≤ (NK_MAX_THINK_REWARD - NK_MIN_THINK_REWARD) / NK_TARGET_THINK_LENGTH := by
      norm_num [NK_MAX_THINK_REWARD, NK_MIN_THINK_REWARD, NK_TARGET_THINK_LENGTH]
    nlinarith
  · intro n hn
    unfold newkkThinkLengthScore
    rw [min_eq_right]
    have hc : (2000 : ℚ) ≤ (n : ℚ) := by exact_mod_cast hn
    simp only [NK_MAX_THINK_REWARD, NK_MIN_THINK_REWARD, NK_TARGET_THINK_LENGTH]
    linarith

/-- Witness for C8 at concrete lengths 1 ≤ 2 and 2500 ≥ 2000. -/
theorem think_length_score_monotone_capped_witness :
    newkkThinkLengthScore 1 ≤ newkkThinkLengthScore 2
    ∧ newkkThinkLengthScore 2500 = NK_MAX_THINK_REWARD :=
  ⟨think_length_score_monotone_capped.1 1 2 (by norm_num) (by norm_num),
   think_length_score_monotone_capped.2 2500 (by norm_num)⟩

/-- Claim C9: every property scoring function degrades to a neutral or zero
contribution when the oracle is unavailable or the underlying oracle call
raises on the given molecule; the synthetic-accessibility reward yields
the fixed neutral value 1 (not 0) when its estimator is unavailable. -/
theorem property_rewards_degrade_gracefully (cfg : ChemCfg) (mol : Mol) :
    (cfg.rdkitAvailable = false →
      qedReward cfg mol = 0 ∧ logpReward cfg mol = 0 ∧ mwReward cfg mol = 0
        ∧ tpsaReward cfg mol = 0 ∧ lipinskiReward cfg mol = 0
        ∧ egfrSpecificReward cfg mol = 0)
    ∧ (cfg.saScoreAvailable = false → saReward cfg mol = 1 ∧ (1 : ℚ) ≠ 0)
    ∧ (mol.qedRes = none → qedReward cfg mol = 0)
    ∧ (cfg.saScoreAvailable = true → mol.saRes = none → saReward cfg mol = 0)
    ∧ (mol.logpRes = none → logpReward cfg mol = 0)
    ∧ (mol.mwRes = none → mwReward cfg mol = 0 ∧ lipinskiReward cfg mol = 0)
    ∧ (mol.tpsaRes = none → tpsaReward cfg mol = 0)
    ∧ (mol.hbdRes = none → lipinskiReward cfg mol = 0)
    ∧ (mol.hbaRes = none → lipinskiReward cfg mol = 0)
    ∧ (mol.aromaticRingsRes = none → egfrSpecificReward cfg mol = 0)
    ∧ (mol.rotatableBondsRes = none → egfrSpecificReward cfg mol = 0) := by
  refine ⟨?_, ?_, ?_, ?_, ?_, ?_, ?_, ?_, ?_, ?_, ?_⟩
  · intro hr
    simp [qedReward, logpReward, mwReward, tpsaReward, lipinskiReward, egfrSpecificReward, hr]
  · intro hsa
    exact ⟨by simp [saReward, hsa], by norm_num⟩
  · intro h
    cases hr : cfg.rdkitAvailable <;> simp [qedReward, hr, h]
  · intro hsa h
    simp [saReward, hsa, h]
  · intro h
    cases hr : cfg.rdkitAvailable <;> simp [logpReward, hr, h]
  · intro h
    constructor
    · cases hr : cfg.rdkitAvailable <;> simp [mwReward, hr, h]
    · cases hr : cfg.rdkitAvailable <;> simp [lipinskiReward, hr, h]
  · intro h
    cases hr : cfg.rdkitAvailable <;> simp [tpsaReward, hr, h]
  · intro h
    cases hr : cfg.rdkitAvailable <;>
      cases hmw : mol.mwRes <;> cases hlp : mol.logpRes <;>
        simp [lipinskiReward, hr, h, hmw, hlp]
  · intro h
    cases hr : cfg.rdkitAvailable <;>
      cases hmw : mol.mwRes <;> cases hlp : mol.logpRes <;> cases hhbd : mol.hbdRes <;>
        simp [lipinskiReward, hr, h, hmw, hlp, hhbd]
  · intro h
    cases hr : cfg.rdkitAvailable <;> simp [egfrSpecificReward, hr, h]
  · intro h
    cases hr : cfg.rdkitAvailable <;>
      cases har : mol.aromaticRingsRes <;> simp [egfrSpecificReward, hr, h, har]

/-- Witness for C9: the oracle-unavailable configuration and an
all-raising molecule. -/
theorem property_rewards_degrade_gracefully_witness :
    (qedReward ⟨false, false, fun _ => none⟩ ⟨none, none, none, none, none, none, none, none, none⟩ = 0
      ∧ logpReward ⟨false, false, fun _ => none⟩ ⟨none, none, none, none, none, none, none, none, none⟩ = 0
      ∧ mwReward ⟨false, false, fun _ => none⟩ ⟨none, none, none, none, none, none, none, none, none⟩ = 0
      ∧ tpsaReward ⟨false, false, fun _ => none⟩ ⟨none, none, none, none, none, none, none, none, none⟩ = 0
      ∧ lipinskiReward ⟨false, false, fun _ => none⟩ ⟨none, none, none, none, none, none, none, none, none⟩ = 0
      ∧ egfrSpecificReward ⟨false, false, fun _ => none⟩ ⟨none, none, none, none, none, none, none, none, none⟩ = 0)
    ∧ (saReward ⟨false, false, fun _ => none⟩ ⟨none, none, none, none, none, none, none, none, none⟩ = 1
      ∧ (1 : ℚ) ≠ 0) :=
  ⟨(property_rewards_degrade_gracefully _ _).1 rfl,
   (property_rewards_degrade_gracefully _ _).2.1 rfl⟩

/-- Claim C7: on any text with all four tags present exactly once but out of
order, both structural scorers return the four per-tag existence rewards
plus the order penalty — not the order reward — and no content component
is added. -/
theorem order_violation_score (s g : String) (gt : NewkkGT)
    (h1 : countOccur "<think>" s = 1) (h2 : countOccur "</think>" s = 1)
    (h3 : countOccur "<answer>" s = 1) (h4 : countOccur "</answer>" s = 1)
    (hord : tagOrderOk s = false) :
    ruleComputeScore s g = 4 * RULE_REWARD_TAG_PRESENT + RULE_PENALTY_ORDER_INCORRECT
    ∧ newkkComputeScore s gt = 4 * NK_REWARD_TAG_PRESENT + NK_PENALTY_ORDER_INCORRECT := by
  constructor
  · simp [ruleComputeScore, h1, h2, h3, h4, hord]
  · simp [newkkComputeScore, h1, h2, h3, h4, hord]

/-- Witness for C7: answer tags before think tags. -/
theorem order_violation_score_witness :
    ruleComputeScore "<answer>b</answer><think>a</think>" ""
      = 4 * RULE_REWARD_TAG_PRESENT + RULE_PENALTY_ORDER_INCORRECT
    ∧ newkkComputeScore "<answer>b</answer><think>a</think>" ⟨none⟩
      = 4 * NK_REWARD_TAG_PRESENT + NK_PENALTY_ORDER_INCORRECT :=
  order_violation_score _ "" ⟨none⟩ (by decide) (by decide) (by decide) (by decide) (by decide)

/-- Claim C2 counterexample: a text whose first three tags are fine but whose
`</answer>` is duplicated. The scorers return the per-tag rewards already
accumulated plus the penalty — not the bare penalty the claim states. -/
theorem missing_duplicate_penalty_counterexample :
    countOccur "</answer>" "<think>a</think><answer>b</answer></answer>" = 2
    ∧ ruleComputeScore "<think>a</think><answer>b</answer></answer>" "" = -1/2
    ∧ ruleComputeScore "<think>a</think><answer>b</answer></answer>" ""
        ≠ RULE_PENALTY_TAG_MISSING_OR_DUPLICATE
    ∧ newkkComputeScore "<think>a</think><answer>b</answer></answer>" ⟨none⟩ = -5/2
    ∧ newkkComputeScore "<think>a</think><answer>b</answer></answer>" ⟨none⟩
        ≠ NK_PENALTY_TAG_MISSING_OR_DUPLICATE := by
  have h1 : countOccur "<think>" "<think>a</think><answer>b</answer></answer>" = 1 := by decide
  have h2 : countOccur "</think>" "<think>a</think><answer>b</answer></answer>" = 1 := by decide
  have h3 : countOccur "<answer>" "<think>a</think><answer>b</answer></answer>" = 1 := by decide
  have h4 : countOccur "</answer>" "<think>a</think><answer>b</answer></answer>" = 2 := by decide
  have hr : ruleComputeScore "<think>a</think><answer>b</answer></answer>" "" = -1/2 := by
    simp [ruleComputeScore, h1, h2, h3, h4]
    norm_num [RULE_REWARD_TAG_PRESENT, RULE_PENALTY_TAG_MISSING_OR_DUPLICATE]
  have hn : newkkComputeScore "<think>a</think><answer>b</answer></answer>" ⟨none⟩ = -5/2 := by
    simp [newkkComputeScore, h1, h2, h3, h4]
    norm_num [NK_REWARD_TAG_PRESENT, NK_PENALTY_TAG_MISSING_OR_DUPLICATE]
  refine ⟨h4, hr, ?_, hn, ?_⟩
  · rw [hr]
    norm_num [RULE_PENALTY_TAG_MISSING_OR_DUPLICATE]
  · rw [hn]
    norm_num [NK_PENALTY_TAG_MISSING_OR_DUPLICATE]

/-- Claim C2 amended: on a missing or duplicated tag both scorers return the
missing/duplicate penalty plus one per-tag presence reward for each tag
that passed before the first failing tag, in the fixed check order
think_start, think_end, answer_start, answer_end; the total equals the
bare penalty exactly when `<think>` itself fails. -/
theorem missing_duplicate_penalty_amended (s g : String) (gt : NewkkGT) :
    (countOccur "<think>" s ≠ 1 →
      ruleComputeScore s g = RULE_PENALTY_TAG_MISSING_OR_DUPLICATE
      ∧ newkkComputeScore s gt = NK_PENALTY_TAG_MISSING_OR_DUPLICATE)
    ∧ (countOccur "<think>" s = 1 → countOccur "</think>" s ≠ 1 →
      ruleComputeScore s g = RULE_REWARD_TAG_PRESENT + RULE_PENALTY_TAG_MISSING_OR_DUPLICATE
      ∧ newkkComputeScore s gt = NK_REWARD_TAG_PRESENT + NK_PENALTY_TAG_MISSING_OR_DUPLICATE)
    ∧ (countOccur "<think>" s = 1 → countOccur "</think>" s = 1 →
        countOccur "<answer>" s ≠ 1 →
      ruleComputeScore s g = 2 * RULE_REWARD_TAG_PRESENT + RULE_PENALTY_TAG_MISSING_OR_DUPLICATE
      ∧ newkkComputeScore s gt = 2 * NK_REWARD_TAG_PRESENT + NK_PENALTY_TAG_MISSING_OR_DUPLICATE)
    ∧ (countOccur "<think>" s = 1 → countOccur "</think>" s = 1 →
        countOccur "<answer>" s = 1 → countOccur "</answer>" s ≠ 1 →
      ruleComputeScore s g = 3 * RULE_REWARD_TAG_PRESENT + RULE_PENALTY_TAG_MISSING_OR_DUPLICATE
      ∧ newkkComputeScore s gt = 3 * NK_REWARD_TAG_PRESENT + NK_PENALTY_TAG_MISSING_OR_DUPLICATE) := by
  refine ⟨?_, ?_, ?_, ?_⟩
  · intro h1
    exact ⟨by simp [ruleComputeScore, h1], by simp [newkkComputeScore, h1]⟩
  · intro h1 h2
    exact ⟨by simp [ruleComputeScore, h1, h2], by simp [newkkComputeScore, h1, h2]⟩
  · intro h1 h2 h3
    exact ⟨by simp [ruleComputeScore, h1, h2, h3], by simp [newkkComputeScore, h1, h2, h3]⟩
  · intro h1 h2 h3 h4
    exact ⟨by simp [ruleComputeScore, h1, h2, h3, h4], by simp [newkkComputeScore, h1, h2, h3, h4]⟩

/-- Witness for C2 amended: a text missing `</think>` (one earlier tag
passed). -/
theorem missing_duplicate_penalty_amended_witness :
    ruleComputeScore "<think>a<answer>b</answer>" ""
      = RULE_REWARD_TAG_PRESENT + RULE_PENALTY_TAG_MISSING_OR_DUPLICATE
    ∧ newkkComputeScore "<think>a<answer>b</answer>" ⟨none⟩
      = NK_REWARD_TAG_PRESENT + NK_PENALTY_TAG_MISSING_OR_DUPLICATE :=
  (missing_duplicate_penalty_amended "<think>a<answer>b</answer>" "" ⟨none⟩).2.1
    (by decide) (by decide)

/-- Claim C3 counterexample: a text with all four delimiters exactly once, in
the correct order, but upper-cased. The scan finds zero occurrences of
each lowercase literal and both scorers reject with the missing-tag
penalty instead of accepting. -/
theorem case_insensitive_counterexample :
    countOccur "<think>" "<THINK>a</THINK><ANSWER>b</ANSWER>" = 0
    ∧ structAccepted "<THINK>a</THINK><ANSWER>b</ANSWER>" = false
    ∧ ruleComputeScore "<THINK>a</THINK><ANSWER>b</ANSWER>" ""
        = RULE_PENALTY_TAG_MISSING_OR_DUPLICATE
    ∧ newkkComputeScore "<THINK>a</THINK><ANSWER>b</ANSWER>" ⟨none⟩
        = NK_PENALTY_TAG_MISSING_OR_DUPLICATE := by
  have h0 : countOccur "<think>" "<THINK>a</THINK><ANSWER>b</ANSWER>" = 0 := by decide
  exact ⟨h0, by decide, by simp [ruleComputeScore, h0], by simp [newkkComputeScore, h0]⟩

/-- Claim C3 amended: the delimiter scan is case-sensitive (exact literal
match). A text containing no exact `<think>` literal — whatever cased
variants it contains — is not accepted and is rejected with the
missing-tag penalty by both scorers. -/
theorem case_sensitive_scan_amended (s g : String) (gt : NewkkGT)
    (h : countOccur "<think>" s = 0) :
    structAccepted s = false
    ∧ ruleComputeScore s g = RULE_PENALTY_TAG_MISSING_OR_DUPLICATE
    ∧ newkkComputeScore s gt = NK_PENALTY_TAG_MISSING_OR_DUPLICATE := by
  refine ⟨?_, by simp [ruleComputeScore, h], by simp [newkkComputeScore, h]⟩
  simp [structAccepted, h]

/-- Witness for C3 amended at the upper-cased input. -/
theorem case_sensitive_scan_amended_witness :
    structAccepted "<THINK>a</THINK><ANSWER>b</ANSWER>" = false
    ∧ ruleComputeScore "<THINK>a</THINK><ANSWER>b</ANSWER>" ""
        = RULE_PENALTY_TAG_MISSING_OR_DUPLICATE
    ∧ newkkComputeScore "<THINK>a</THINK><ANSWER>b</ANSWER>" ⟨none⟩
        = NK_PENALTY_TAG_MISSING_OR_DUPLICATE :=
  case_sensitive_scan_amended _ "" ⟨none⟩ (by decide)

theorem newkkThinkLengthScore_zero : newkkThinkLengthScore 0 = NK_MIN_THINK_REWARD := by
  unfold newkkThinkLengthScore
  rw [min_eq_left (by norm_num [NK_MAX_THINK_REWARD, NK_MIN_THINK_REWARD, NK_TARGET_THINK_LENGTH])]
  norm_num

/-- Claim C5 counterexample: structure passes, the answer block is the
non-empty "x", the ground-truth role map is empty — and the scorer adds
no penalty at all (total -1), while the claim demands the empty-answer
penalty (total -3). -/
theorem empty_gtmap_penalty_counterexample :
    structAccepted "<think></think><answer>x</answer>" = true
    ∧ answerContentOf "<think></think><answer>x</answer>" ≠ ""
    ∧ parseGtToMap (gtTextOf ⟨none⟩) = []
    ∧ newkkComputeScore "<think></think><answer>x</answer>" ⟨none⟩ = -1
    ∧ newkkComputeScore "<think></think><answer>x</answer>" ⟨none⟩
        ≠ newkkPreAnswerScore "<think></think><answer>x</answer>" ⟨none⟩
          + NK_PENALTY_CONTENT_EMPTY_ANSWER := by
  have h1 : countOccur "<think>" "<think></think><answer>x</answer>" = 1 := by decide
  have h2 : countOccur "</think>" "<think></think><answer>x</answer>" = 1 := by decide
  have h3 : countOccur "<answer>" "<think></think><answer>x</answer>" = 1 := by decide
  have h4 : countOccur "</answer>" "<think></think><answer>x</answer>" = 1 := by decide
  have h5 : tagOrderOk "<think></think><answer>x</answer>" = true := by decide
  have ha : answerContentOf "<think></think><answer>x</answer>" = "x" := by decide
  have hm : parseGtToMap (gtTextOf ⟨none⟩) = [] := by decide
  have ht : thinkContentOf "<think></think><answer>x</answer>" = "" := by decide
  have hpre : newkkPreAnswerScore "<think></think><answer>x</answer>" ⟨none⟩ = -1 := by
    simp only [newkkPreAnswerScore, ht, hm, List.isEmpty_nil, if_true]
    rw [show ("" : String).data.length = 0 from rfl, newkkThinkLengthScore_zero]
    norm_num [NK_REWARD_TAG_PRESENT, NK_REWARD_ORDER_CORRECT, NK_MIN_THINK_REWARD]
  have hscore : newkkComputeScore "<think></think><answer>x</answer>" ⟨none⟩ = -1 := by
    rw [show (-1 : ℚ) = newkkPreAnswerScore "<think></think><answer>x</answer>" ⟨none⟩ from hpre.symm]
    simp [newkkComputeScore, h1, h2, h3, h4, h5, ha, hm,
      (show ("x" : String) ≠ "" from by decide)]
  refine ⟨by decide, by rw [ha]; decide, hm, hscore, ?_⟩
  rw [hscore, hpre]
  norm_num [NK_PENALTY_CONTENT_EMPTY_ANSWER]

/-- Claim C5 amended: on a structurally accepted text, the empty-answer penalty
is added exactly when the answer block text is empty; when the
ground-truth role map is empty but the answer block is non-empty, the
scorer short-circuits past the assertion stage adding nothing. -/
theorem empty_answer_short_circuit_amended (s : String) (gt : NewkkGT)
    (hs : structAccepted s = true) :
    (answerContentOf s = "" →
      newkkComputeScore s gt = newkkPreAnswerScore s gt + NK_PENALTY_CONTENT_EMPTY_ANSWER)
    ∧ (answerContentOf s ≠ "" → parseGtToMap (gtTextOf gt) = [] →
      newkkComputeScore s gt = newkkPreAnswerScore s gt) := by
  have h' := hs
  simp only [structAccepted, Bool.and_eq_true, beq_iff_eq] at h'
  obtain ⟨⟨⟨⟨h1, h2⟩, h3⟩, h4⟩, h5⟩ := h'
  constructor
  · intro ha
    simp [newkkComputeScore, h1, h2, h3, h4, h5, ha]
  · intro ha hm
    simp [newkkComputeScore, h1, h2, h3, h4, h5, ha, hm]

/-- Witness for C5 amended: both legs at concrete inputs — an
all-whitespace answer block and a non-empty answer with empty role map. -/
theorem empty_answer_short_circuit_amended_witness :
    newkkComputeScore "<think>a</think><answer> </answer>" ⟨none⟩
      = newkkPreAnswerScore "<think>a</think><answer> </answer>" ⟨none⟩
        + NK_PENALTY_CONTENT_EMPTY_ANSWER
    ∧ newkkComputeScore "<think></think><answer>x</answer>" ⟨some "nobody here"⟩
      = newkkPreAnswerScore "<think></think><answer>x</answer>" ⟨some "nobody here"⟩ :=
  ⟨(empty_answer_short_circuit_amended "<think>a</think><answer> </answer>" ⟨none⟩
      (by decide)).1 (by decide),
   (empty_answer_short_circuit_amended "<think></think><answer>x</answer>" ⟨some "nobody here"⟩
      (by decide)).2 (by decide) (by decide)⟩

/-- Claim C6: the molecule scorer is strictly staged. Any input without exactly
one SMILES pair with non-empty inner text totals exactly the
format-failure penalty -5; any extracted SMILES the oracle fails to parse
totals exactly format reward plus validity penalty (1 - 3 = -2), with no
property-stage contribution. -/
theorem chem_staged_scoring :
    (∀ (cfg : ChemCfg) (s : String), (checkFormat s).2 = none →
      chemComputeScore cfg s = -5)
    ∧ (∀ (cfg : ChemCfg) (s smiles : String), cfg.rdkitAvailable = true →
      (checkFormat s).2 = some smiles → cfg.molFromSmiles smiles = none →
      chemComputeScore cfg s = -2) := by
  constructor
  · intro cfg s h
    cases hr : cfg.rdkitAvailable with
    | false => simp [chemComputeScore, hr]
    | true =>
      have h1 := checkFormat_fst_of_none s h
      simp [chemComputeScore, hr, h, h1]
  · intro cfg s smiles hr h hp
    have h1 := checkFormat_fst_of_some s smiles h
    have hv := checkValidity_parse_none cfg smiles hr hp
    simp [chemComputeScore, hr, h, h1, hv]
    norm_num

/-- Witness for C6: the spec's own scenarios — "<SMILES></SMILES>" (empty
inner text) and an unparsable SMILES under a parser that rejects
everything. -/
theorem chem_staged_scoring_witness :
    (checkFormat "<SMILES></SMILES>").2 = none
    ∧ chemComputeScore ⟨true, false, fun _ => none⟩ "<SMILES></SMILES>" = -5
    ∧ (checkFormat "<SMILES>CC(</SMILES>").2 = some "CC("
    ∧ chemComputeScore ⟨true, false, fun _ => none⟩ "<SMILES>CC(</SMILES>" = -2 := by
  refine ⟨by decide, ?_, by decide, ?_⟩
  · exact chem_staged_scoring.1 ⟨true, false, fun _ => none⟩ _ (by decide)
  · exact chem_staged_scoring.2 ⟨true, false, fun _ => none⟩ _ "CC(" rfl (by decide) rfl

theorem logicRLSampleRow_isOk {γ : Type} (ext : ExtScorers γ) (tok : List Nat → String)
    (s : LRSample γ) (hwf : s.wf) : (logicRLSampleRow ext tok s).isOk = true := by
  obtain ⟨hlen, hmask, hne⟩ := hwf
  have hvrl : validResponseLength s ≤ s.responses.length := by
    have hsum := sum_le_length_of_le_one (s.attentionMask.drop s.prompts.length)
      (fun b hb => hmask b (List.drop_subset _ _ hb))
    have hdl : (s.attentionMask.drop s.prompts.length).length = s.responses.length := by
      rw [List.length_drop, hlen]
      omega
    unfold validResponseLength
    omega
  have hL : 1 ≤ s.responses.length := Nat.one_le_iff_ne_zero.mpr hne
  unfold logicRLSampleRow
  rw [show selectRmScoreFn "kk" = .ok .kk from rfl]
  show (torchSetNeg (List.replicate s.responses.length 0)
    ((validResponseLength s : ℤ) - 1) _).isOk = true
  apply torchSetNeg_isOk
  rw [List.length_replicate]
  constructor
  · omega
  · omega

/-- Claim C1 counterexample: `_select_rm_score_fn` raises NotImplementedError
on the unregistered identifier "mysource", yet a batch whose only sample
carries that identifier is scored successfully — with the kk scorer
(modelled as the constant 7), because the loop passes the literal "kk"
instead of the sample's data-source identifier. -/
theorem logicRL_hardcoded_kk_counterexample :
    selectRmScoreFn "mysource" = .error "NotImplementedError"
    ∧ logicRLCall (⟨fun _ _ => 0, fun _ _ => 0, fun _ _ => 0, fun _ _ => 7⟩ : ExtScorers Unit)
        (fun _ => "")
        ⟨none, [{ prompts := [0], responses := [0, 0], attentionMask := [1, 1, 0],
                  groundTruth := (), dataSource := "mysource" }]⟩
      = .ok [[7, 0]] := by
  constructor
  · rfl
  · rfl

/-- Claim C1 amended: the batch loop of LogicRLRewardManager calls
`_select_rm_score_fn` with the constant string "kk" for every sample, so
the reward rows are invariant under changing any sample's data-source
identifier, and a well-formed batch is always scored without error —
including batches whose identifiers are not registered. -/
theorem logicRL_scorer_selection_amended {γ : Type} (ext : ExtScorers γ)
    (tok : List Nat → String) :
    (∀ (s : LRSample γ) (d : String),
      logicRLSampleRow ext tok { s with dataSource := d } = logicRLSampleRow ext tok s)
    ∧ (∀ batch : LRBatch γ, batch.rmScores = none →
      (∀ s ∈ batch.samples, s.wf) → (logicRLCall ext tok batch).isOk = true) := by
  constructor
  · intro s d
    rfl
  · intro batch hrm hwf
    unfold logicRLCall
    rw [hrm]
    exact mapM_except_isOk _ _ (fun a ha => logicRLSampleRow_isOk ext tok a (hwf a ha))

/-- Witness for C1 amended at a concrete sample and single-sample
batch. -/
theorem logicRL_scorer_selection_amended_witness :
    logicRLSampleRow (⟨fun _ _ => 0, fun _ _ => 0, fun _ _ => 0, fun _ _ => 7⟩ : ExtScorers Unit)
        (fun _ => "")
        { prompts := [0], responses := [0, 0], attentionMask := [1, 1, 0],
          groundTruth := (), dataSource := "swapped" }
      = logicRLSampleRow ⟨fun _ _ => 0, fun _ _ => 0, fun _ _ => 0, fun _ _ => 7⟩
          (fun _ => "")
          { prompts := [0], responses := [0, 0], attentionMask := [1, 1, 0],
            groundTruth := (), dataSource := "mysource" }
    ∧ (logicRLCall (⟨fun _ _ => 0, fun _ _ => 0, fun _ _ => 0, fun _ _ => 7⟩ : ExtScorers Unit)
        (fun _ => "")
        ⟨none, [{ prompts := [0], responses := [0, 0], attentionMask := [1, 1, 0],
                  groundTruth := (), dataSource := "mysource" }]⟩).isOk = true :=
  ⟨(logicRL_scorer_selection_amended
      (⟨fun _ _ => 0, fun _ _ => 0, fun _ _ => 0, fun _ _ => 7⟩ : ExtScorers Unit)
      (fun _ => "")).1
      { prompts := [0], responses := [0, 0], attentionMask := [1, 1, 0],
        groundTruth := (), dataSource := "mysource" } "swapped",
   (logicRL_scorer_selection_amended
      (⟨fun _ _ => 0, fun _ _ => 0, fun _ _ => 0, fun _ _ => 7⟩ : ExtScorers Unit)
      (fun _ => "")).2
      ⟨none, [{ prompts := [0], responses := [0, 0], attentionMask := [1, 1, 0],
                groundTruth := (), dataSource := "mysource" }]⟩ rfl
      (by
        intro a ha
        simp only [List.mem_singleton] at ha
        subst ha
        exact ⟨rfl, by decide, by decide⟩)⟩

/-- Claim C4 counterexample: a sample whose attention mask selects zero
response tokens. The chem batch call does not abort; it silently writes
the sample's score (-5 for the empty decoded response) into the last
column of the sample's reward row via negative-index wraparound. -/
theorem zero_valid_tokens_counterexample :
    validResponseLength
        ({ prompts := [0], responses := [0, 0, 0], attentionMask := [1, 0, 0, 0],
           groundTruth := (), dataSource := "chem" } : LRSample Unit) = 0
    ∧ chemRewardCall ⟨true, false, fun _ => none⟩ (fun _ => "")
        ⟨none, [{ prompts := [0], responses := [0, 0, 0], attentionMask := [1, 0, 0, 0],
                  groundTruth := (), dataSource := "chem" }]⟩
      = .ok [[0, 0, -5]] := by
  constructor
  · decide
  · rfl

/-- Claim C4 amended: for any sample with zero valid response tokens (and a
non-empty padded response row), the per-sample reward-row construction
does not fail: the score of the empty decoded response is written at the
last column of the row (torch index -1). -/
theorem zero_valid_tokens_amended {γ : Type} (cfg : ChemCfg) (tok : List Nat → String)
    (s : LRSample γ) (h0 : validResponseLength s = 0) (hL : s.responses.length ≠ 0) :
    chemSampleRow cfg tok s
      = .ok ((List.replicate s.responses.length (0 : ℚ)).set (s.responses.length - 1)
          (chemComputeScore cfg (tok []))) := by
  have hL1 : 1 ≤ s.responses.length := Nat.one_le_iff_ne_zero.mpr hL
  unfold chemSampleRow torchSetNeg
  rw [h0]
  simp only [Nat.cast_zero, zero_sub, List.take_zero, List.length_replicate]
  rw [if_pos (by norm_num : (-1 : ℤ) < 0),
      dif_pos (⟨by omega, by omega⟩ :
        (0 : ℤ) ≤ -1 + (s.responses.length : ℤ)
        ∧ ((-1 : ℤ) + (s.responses.length : ℤ)).toNat < s.responses.length)]
  rw [show ((-1 : ℤ) + (s.responses.length : ℤ)).toNat = s.responses.length - 1 from by omega]

/-- Witness for C4 amended at the concrete zero-valid-token sample. -/
theorem zero_valid_tokens_amended_witness :
    chemSampleRow (⟨true, false, fun _ => none⟩ : ChemCfg) (fun _ => "")
        ({ prompts := [0], responses := [0, 0, 0], attentionMask := [1, 0, 0, 0],
           groundTruth := (), dataSource := "chem" } : LRSample Unit)
      = .ok [0, 0, -5] := by
  have h := zero_valid_tokens_amended (⟨true, false, fun _ => none⟩ : ChemCfg) (fun _ => "")
      ({ prompts := [0], responses := [0, 0, 0], attentionMask := [1, 0, 0, 0],
         groundTruth := (), dataSource := "chem" } : LRSample Unit) (by decide) (by decide)
  rw [h]
  rfl
